import Mathlib

/-!
Verification of the PTY execution engine of sudo-rs: a shallow embedding of
src/exec/use_pty/parent.rs and src/exec/use_pty/monitor.rs, together with
theorems settling the specification claims about them.

Machine integers (pid_t, c_int, i32) are modelled as Int; byte buffers as
List Nat with each element below 256.  Fallible operations are modelled by
Except / Option arguments standing for the outcome the OS produced, so each
handler becomes a pure function from its state, dispatcher state and the
observed OS outcome to the new state, new dispatcher state and the list of
side effects it performs.
-/

namespace SudoExec

/-! Signal numbers as provided by signal_hook::consts on Linux. -/

def SIGCHLD : Int := 17

def SIGCONT : Int := 18

def SIGWINCH : Int := 28

def SIGALRM : Int := 14

/-- Modelled from the spec: SIGCONT_FG (crate::exec::use_pty, file not under src)
is an internal signal token carried over the backchannel, not an actual OS
signal number; the spec only requires it to be distinct from real signals. -/
def SIGCONT_FG : Int := -2

/-- Modelled from the spec: SIGCONT_BG is the companion internal token,
distinct from SIGCONT_FG and from every OS signal number. -/
def SIGCONT_BG : Int := -1

/-- Error kinds of std::io::Error that the two files inspect. -/
inductive ErrorKind
  | UnexpectedEof
  | BrokenPipe
  | Interrupted
  | WouldBlock
  | Other
deriving DecidableEq

/-- Model of std::io::Error: its kind and its raw OS error code, if any. -/
structure IoErr where
  kind : ErrorKind
  raw_os_error : Option Int
deriving DecidableEq

/-- Modelled from the spec: io_util::was_interrupted (file not under src)
recognises the EINTR condition, the transparent-retry case of the EINTR
discipline described in the spec. -/
def was_interrupted (e : IoErr) : Bool := e.kind == ErrorKind.Interrupted

/-- Model of io::Error::from_raw_os_error: an error whose raw code is the
given integer. -/
def IoErr.from_raw_os_error (code : Int) : IoErr := ⟨ErrorKind.Other, some code⟩

/-- Wait statuses distinguished by system::wait::WaitStatus as used by the
two files: exit with a code, termination by a signal, stop by a signal, or
continuation. -/
inductive WaitStatus
  | Exited (code : Int)
  | Signaled (signal : Int)
  | Stopped (signal : Int)
  | Continued
deriving DecidableEq

def WaitStatus.exit_status : WaitStatus → Option Int
  | .Exited code => some code
  | _ => none

def WaitStatus.term_signal : WaitStatus → Option Int
  | .Signaled signal => some signal
  | _ => none

def WaitStatus.stop_signal : WaitStatus → Option Int
  | .Stopped signal => some signal
  | _ => none

def WaitStatus.did_continue : WaitStatus → Bool
  | .Continued => true
  | _ => false

/-- Errors of system::wait::waitpid. -/
inductive WaitError
  | NotReady
  | Io (err : IoErr)
deriving DecidableEq

/-- Outcome of one waitpid call: a (pid, status) pair or an error. -/
abbrev WaitResult := Except WaitError (Int × WaitStatus)

/-- Parent-to-monitor backchannel messages. -/
inductive MonitorMessage
  | ExecCommand
  | Signal (signal : Int)
deriving DecidableEq

/-- Monitor-to-parent backchannel messages. -/
inductive ParentMessage
  | CommandPid (pid : Int)
  | CommandExit (code : Int)
  | CommandSignal (signal : Int)
  | CommandStatus (status : WaitStatus)
  | IoError (code : Int)
  | ShortRead
deriving DecidableEq

/-- Modelled from the spec: the event dispatcher (exec/event.rs, not under
src) records at most one break reason and at most one exit value; these two
fields are all the handler code observes or updates through set_break,
set_exit and got_break. -/
structure DispatcherState (B E : Type) where
  break_reason : Option B
  exit_value : Option E
deriving DecidableEq

/-- Modelled from the spec: set_break requests loop exit with an error and is
idempotent; a second call after the first is a no-op. -/
def set_break {B E : Type} (d : DispatcherState B E) (e : B) : DispatcherState B E :=
  match d.break_reason with
  | some _ => d
  | none => { d with break_reason := some e }

/-- Modelled from the spec: set_exit requests loop exit with a success value;
the last writer wins. -/
def set_exit {B E : Type} (d : DispatcherState B E) (v : E) : DispatcherState B E :=
  { d with exit_value := some v }

/-- Modelled from the spec: got_break reports whether a break was requested. -/
def got_break {B E : Type} (d : DispatcherState B E) : Bool :=
  d.break_reason.isSome

/-- Exit reasons of the whole PTY execution, exec::ExitReason. -/
inductive ExitReason
  | Code (code : Int)
  | Signal (signal : Int)
deriving DecidableEq

/-- The parent event loop's exit type, enum ParentExit of parent.rs. -/
inductive ParentExit
  | Backchannel (err : IoErr)
  | Command (reason : ExitReason)
deriving DecidableEq

abbrev ParentDispatcher := DispatcherState IoErr ParentExit

abbrev MonitorDispatcher := DispatcherState IoErr WaitStatus

/-- Structured signal information delivered by the dispatcher,
system::signal::SignalInfo. -/
structure SignalInfo where
  signal : Int
  pid : Int
  is_user_signaled : Bool

/-- The fields of struct ParentClosure (parent.rs) that its handlers read or
write; the tty, the pipes and the backchannel handle are file-descriptor
resources whose traffic is modelled as handler arguments and effects. -/
structure ParentClosure where
  monitor_pid : Option Int
  sudo_pid : Int
  command_pid : Option Int
  message_queue : List MonitorMessage
deriving DecidableEq

/-- ParentClosure::on_message_received (parent.rs lines 260-311), as a pure
function of the recv outcome.  The source match on ParentMessage has no
CommandStatus arm in the parent; following the spec's message table, a stop
notification changes neither the recorded state nor the dispatcher. -/
def on_message_received (st : ParentClosure) (d : ParentDispatcher)
    (recv : Except IoErr ParentMessage) : ParentClosure × ParentDispatcher :=
  match recv with
  | .error err =>
    if was_interrupted err then (st, d)
    else if err.kind = ErrorKind.UnexpectedEof then
      (st, set_exit d (ParentExit.Backchannel err))
    else if got_break d then (st, d)
    else (st, set_break d err)
  | .ok event =>
    match event with
    | .CommandPid pid => ({ st with command_pid := some pid }, d)
    | .CommandExit code =>
      (st, set_exit d (ParentExit.Command (ExitReason.Code code)))
    | .CommandSignal signal =>
      (st, set_exit d (ParentExit.Command (ExitReason.Signal signal)))
    | .CommandStatus _ => (st, d)
    | .IoError code => (st, set_break d (IoErr.from_raw_os_error code))
    | .ShortRead => (st, set_break d ⟨ErrorKind.UnexpectedEof, none⟩)

/-- C1: for every ParentMessage received by the parent's on_message_received,
CommandPid(p) sets command_pid to Some(p) and changes nothing else,
CommandExit(code) sets the dispatcher exit value to ExitReason::Code(code),
and CommandSignal(sig) sets the dispatcher exit value to
ExitReason::Signal(sig). -/
theorem parent_lifecycle_messages (st : ParentClosure) (d : ParentDispatcher)
    (p c s : Int) :
    on_message_received st d (Except.ok (ParentMessage.CommandPid p)) =
      ({ st with command_pid := some p }, d) ∧
    on_message_received st d (Except.ok (ParentMessage.CommandExit c)) =
      (st, set_exit d (ParentExit.Command (ExitReason.Code c))) ∧
    on_message_received st d (Except.ok (ParentMessage.CommandSignal s)) =
      (st, set_exit d (ParentExit.Command (ExitReason.Signal s))) :=
  ⟨rfl, rfl, rfl⟩

/-- The fields of struct MonitorClosure (monitor.rs) that its handlers read
or write; the pty follower, the error pipe and the backchannel are resources
whose traffic is modelled as handler arguments and effects. -/
structure MonitorClosure where
  command_pid : Option Int
  command_pgrp : Int
  monitor_pgrp : Int
deriving DecidableEq

/-- Observable side effects of the monitor's handlers: a graceful
terminate_process of the command, a tcsetpgrp on the pty follower, a kill,
a message sent upstream to the parent, or reaching the unreachable arm. -/
inductive MonitorEffect
  | terminate_command (pid : Int)
  | tcsetpgrp_follower (pgrp : Int)
  | kill (pid : Int) (signal : Int)
  | send_parent (msg : ParentMessage)
  | unreachable_hit
deriving DecidableEq

/-- MonitorClosure::send_signal (monitor.rs lines 317-354): the per-signal
policy table, emitted as the list of effects performed in order. -/
def send_signal (st : MonitorClosure) (signal : Int) (command_pid : Int) :
    List MonitorEffect :=
  if signal = SIGALRM then
    [MonitorEffect.terminate_command command_pid]
  else if signal = SIGCONT_FG then
    [MonitorEffect.tcsetpgrp_follower st.command_pgrp,
     MonitorEffect.kill command_pid SIGCONT]
  else if signal = SIGCONT_BG then
    [MonitorEffect.tcsetpgrp_follower st.monitor_pgrp,
     MonitorEffect.kill command_pid SIGCONT]
  else
    [MonitorEffect.kill command_pid signal]

/-- MonitorClosure::read_backchannel (monitor.rs lines 235-257), as a pure
function of the recv outcome.  The ExecCommand arm is unreachable!() in the
source; it is recorded as the unreachable_hit effect. -/
def read_backchannel (st : MonitorClosure) (d : MonitorDispatcher)
    (recv : Except IoErr MonitorMessage) :
    MonitorClosure × MonitorDispatcher × List MonitorEffect :=
  match recv with
  | .error err =>
    if was_interrupted err then (st, d, [])
    else (st, set_break d err, [])
  | .ok MonitorMessage.ExecCommand => (st, d, [MonitorEffect.unreachable_hit])
  | .ok (MonitorMessage.Signal signal) =>
    match st.command_pid with
    | some command_pid => (st, d, send_signal st signal command_pid)
    | none => (st, d, [])

/-- The waitpid retry loop of MonitorClosure::handle_sigchld (monitor.rs
lines 260-266) over the finite sequence of outcomes the OS produces: an
interrupted waitpid is retried, any other error makes the function return
(none), and the first successful wait yields the status.  An exhausted list
means the loop is still blocked and is also modelled as none. -/
def monitor_wait_loop : List WaitResult → Option WaitStatus
  | [] => none
  | .ok (_, status) :: _ => some status
  | .error (.Io err) :: rest =>
    if was_interrupted err then monitor_wait_loop rest else none
  | .error .NotReady :: _ => none

/-- The waitpid retry loop of ParentClosure::handle_sigchld (parent.rs lines
369-379) over the finite sequence of outcomes the OS produces: every error,
interrupted or not, NotReady included, is logged and retried; only a
successful wait leaves the loop.  An exhausted list means the loop is still
spinning and is modelled as none. -/
def parent_wait_loop : List WaitResult → Option WaitStatus
  | [] => none
  | .ok (_, status) :: _ => some status
  | .error _ :: rest => parent_wait_loop rest

/-- MonitorClosure::handle_sigchld (monitor.rs lines 259-300): the command
is reaped with waitpid; on exit or signal termination command_pid becomes
None and the dispatcher exit is set to the status; on a stop the follower's
foreground pgrp (the tcget argument, the outcome of tcgetpgrp) replaces
command_pgrp when it differs from monitor_pgrp, and CommandStatus is sent
upstream; a continue only logs. -/
def handle_sigchld (st : MonitorClosure) (command_pid : Int)
    (d : MonitorDispatcher) (waitResults : List WaitResult)
    (tcget : Option Int) :
    MonitorClosure × MonitorDispatcher × List MonitorEffect :=
  match monitor_wait_loop waitResults with
  | none => (st, d, [])
  | some status =>
    if (WaitStatus.exit_status status).isSome then
      ({ st with command_pid := none }, set_exit d status, [])
    else if (WaitStatus.term_signal status).isSome then
      ({ st with command_pid := none }, set_exit d status, [])
    else if (WaitStatus.stop_signal status).isSome then
      (match tcget with
       | some pgrp =>
         if pgrp ≠ st.monitor_pgrp then { st with command_pgrp := pgrp } else st
       | none => st,
       d, [MonitorEffect.send_parent (ParentMessage.CommandStatus status)])
    else (st, d, [])

/-- ParentClosure::handle_sigchld (parent.rs lines 366-401): wait for the
monitor, retrying every error; on exit or signal termination of the monitor
set monitor_pid to None; stops and continues only log. -/
def parent_handle_sigchld (st : ParentClosure) (monitor_pid : Int)
    (waitResults : List WaitResult) : ParentClosure :=
  match parent_wait_loop waitResults with
  | none => st
  | some status =>
    if (WaitStatus.exit_status status).isSome then { st with monitor_pid := none }
    else if (WaitStatus.term_signal status).isSome then { st with monitor_pid := none }
    else st

/-- The free function is_self_terminating of monitor.rs (lines 362-380); the
pgidOf argument is the outcome of getpgid for each pid. -/
def m_is_self_terminating (pgidOf : Int → Option Int)
    (signaler_pid command_pid command_pgrp : Int) : Bool :=
  if signaler_pid ≠ 0 then
    if signaler_pid = command_pid then true
    else
      match pgidOf signaler_pid with
      | some grp_leader => if grp_leader = command_pgrp then true else false
      | none => false
  else false

/-- MonitorClosure::on_signal (monitor.rs lines 386-407): ignore everything
once the command is reaped; dispatch SIGCHLD to handle_sigchld; drop
user-sent self-terminating signals; forward the rest through send_signal. -/
def monitor_on_signal (st : MonitorClosure) (d : MonitorDispatcher)
    (info : SignalInfo) (pgidOf : Int → Option Int)
    (waitResults : List WaitResult) (tcget : Option Int) :
    MonitorClosure × MonitorDispatcher × List MonitorEffect :=
  match st.command_pid with
  | none => (st, d, [])
  | some command_pid =>
    if info.signal = SIGCHLD then
      handle_sigchld st command_pid d waitResults tcget
    else if info.is_user_signaled &&
        m_is_self_terminating pgidOf info.pid command_pid st.command_pgrp then
      (st, d, [])
    else
      (st, d, send_signal st info.signal command_pid)

/-- i32::to_ne_bytes as performed by the command child on the raw OS error
code (monitor.rs line 92): the four bytes of the 32-bit two's-complement
representation, least significant first (the native order of the target). -/
def i32_to_ne_bytes (e : Int) : List Nat :=
  [(e % 4294967296).toNat % 256,
   (e % 4294967296).toNat / 256 % 256,
   (e % 4294967296).toNat / 65536 % 256,
   (e % 4294967296).toNat / 16777216 % 256]

/-- i32::from_ne_bytes as performed by MonitorClosure::read_errpipe
(monitor.rs line 309) on the four-byte buffer filled by read_exact. -/
def i32_from_ne_bytes : List Nat → Int
  | [b0, b1, b2, b3] =>
    if b0 + 256 * b1 + 65536 * b2 + 16777216 * b3 < 2147483648 then
      ((b0 + 256 * b1 + 65536 * b2 + 16777216 * b3 : Nat) : Int)
    else
      ((b0 + 256 * b1 + 65536 * b2 + 16777216 * b3 : Nat) : Int) - 4294967296
  | _ => 0

/-- MonitorClosure::read_errpipe (monitor.rs lines 302-315): a successful
read_exact yields the filled four-byte buffer, whose decoded error code is
forwarded to the parent as IoError; an interrupted read is retried later;
any other read error breaks the event loop. -/
def read_errpipe (st : MonitorClosure) (d : MonitorDispatcher)
    (readResult : Except IoErr (List Nat)) :
    MonitorClosure × MonitorDispatcher × List MonitorEffect :=
  match readResult with
  | .error err =>
    if was_interrupted err then (st, d, [])
    else (st, set_break d err, [])
  | .ok buf =>
    (st, d, [MonitorEffect.send_parent (ParentMessage.IoError (i32_from_ne_bytes buf))])

/-- The write the command child performs on the error pipe when exec fails
(monitor.rs lines 91-93): one write_all of the four native-order bytes of
the raw OS error code when there is one, nothing otherwise. -/
def child_exec_failure_write (err : IoErr) : List (List Nat) :=
  match err.raw_os_error with
  | some error_code => [i32_to_ne_bytes error_code]
  | none => []

/-- ParentClosure::is_self_terminating (parent.rs lines 318-332); the pgidOf
argument is the outcome of getpgid for each pid. -/
def p_is_self_terminating (command_pid : Option Int) (sudo_pid : Int)
    (pgidOf : Int → Option Int) (signaler_pid : Int) : Bool :=
  if signaler_pid ≠ 0 then
    if some signaler_pid = command_pid then true
    else
      match pgidOf signaler_pid with
      | some signaler_pgrp =>
        if some signaler_pgrp = command_pid then true
        else if signaler_pgrp = sudo_pid then true
        else false
      | none => false
  else false

/-- ParentClosure::on_signal (parent.rs lines 427-451): ignore everything
once the monitor is reaped; dispatch SIGCHLD to handle_sigchld; SIGCONT and
SIGWINCH are no-ops; drop user-sent self-terminating signals; schedule a
Signal message for the monitor otherwise (schedule_signal pushes one message
at the back of the queue). -/
def parent_on_signal (st : ParentClosure) (info : SignalInfo)
    (pgidOf : Int → Option Int) (waitResults : List WaitResult) : ParentClosure :=
  match st.monitor_pid with
  | none => st
  | some monitor_pid =>
    if info.signal = SIGCHLD then parent_handle_sigchld st monitor_pid waitResults
    else if info.signal = SIGCONT then st
    else if info.signal = SIGWINCH then st
    else if info.is_user_signaled &&
        p_is_self_terminating st.command_pid st.sudo_pid pgidOf info.pid then st
    else
      { st with message_queue := st.message_queue ++ [MonitorMessage.Signal info.signal] }

/-- The self-termination condition exactly as the specification words it for
the parent: the signaler pid s is nonzero and s is the command pid, or the
process group of s is the command pid, or the process group of s is the sudo
pid.  Stated from the spec for comparison with p_is_self_terminating. -/
def spec_self_terminating (command_pid : Option Int) (sudo_pid : Int)
    (pgidOf : Int → Option Int) (s : Int) : Prop :=
  s ≠ 0 ∧ (some s = command_pid ∨
    (∃ g, pgidOf s = some g ∧ (some g = command_pid ∨ g = sudo_pid)))

/-- The successive actions of exec_pty in the parent process (parent.rs
lines 26-181), in source order, ending with the plain return of the exit
reason; restoration actions do not occur in the source, the closure returned
to the caller is the final entry. -/
inductive ParentStep
  | get_pty
  | create_backchannels
  | ignore_sigttin
  | ignore_sigttou
  | set_command_stdio
  | create_dispatcher
  | register_tty_pipe_callbacks
  | register_pty_pipe_callbacks
  | check_foreground
  | copy_terminal_settings
  | enter_raw_mode
  | fork_monitor
  | close_pty_follower
  | close_monitor_backchannel
  | send_exec_command
  | new_parent_closure
  | run_event_loop
  | return_exit_reason
  | restore_terminal_attributes
  | restore_foreground_pgrp
  | drop_dispatcher
deriving DecidableEq

/-- The statements of exec_pty on the parent path, in the order they execute
(parent.rs lines 32-181).  Raw mode is entered at line 116 when foreground;
after the event loop returns at line 179 the only remaining statement is the
Ok return at line 181. -/
def exec_pty_steps : List ParentStep :=
  [ParentStep.get_pty, ParentStep.create_backchannels, ParentStep.ignore_sigttin,
   ParentStep.ignore_sigttou, ParentStep.set_command_stdio,
   ParentStep.create_dispatcher, ParentStep.register_tty_pipe_callbacks,
   ParentStep.register_pty_pipe_callbacks, ParentStep.check_foreground,
   ParentStep.copy_terminal_settings, ParentStep.enter_raw_mode,
   ParentStep.fork_monitor, ParentStep.close_pty_follower,
   ParentStep.close_monitor_backchannel, ParentStep.send_exec_command,
   ParentStep.new_parent_closure, ParentStep.run_event_loop,
   ParentStep.return_exit_reason]

/-- The statements of exec_pty that execute after the event loop returns
(parent.rs lines 179-181): only the Ok return of the exit reason. -/
def exec_pty_teardown : List ParentStep := [ParentStep.return_exit_reason]

/-- The body of the closure exec_pty hands back to its caller (parent.rs
line 181): a single drop of the dispatcher. -/
def exec_pty_returned_closure : List ParentStep := [ParentStep.drop_dispatcher]

/-- The successive actions of exec_monitor before its event loop
(monitor.rs lines 41-126). -/
inductive MonitorStep
  | create_monitor_dispatcher
  | call_setsid
  | set_controlling_terminal
  | create_errpipe
  | wait_for_exec_command
  | fork_command
  | send_command_pid
  | new_monitor_closure
  | set_follower_foreground
  | run_monitor_event_loop
deriving DecidableEq

/-- The statements of exec_monitor in the order they execute (monitor.rs
lines 47-126): dispatcher at 47, setsid at 55, controlling terminal at 61,
error pipe at 67, green-light recv at 71, fork at 81, CommandPid send at
100, closure construction at 104, conditional tcsetpgrp at 113, event loop
at 126. -/
def exec_monitor_steps : List MonitorStep :=
  [MonitorStep.create_monitor_dispatcher, MonitorStep.call_setsid,
   MonitorStep.set_controlling_terminal, MonitorStep.create_errpipe,
   MonitorStep.wait_for_exec_command, MonitorStep.fork_command,
   MonitorStep.send_command_pid, MonitorStep.new_monitor_closure,
   MonitorStep.set_follower_foreground, MonitorStep.run_monitor_event_loop]

/-- One event delivered to the monitor's event loop, together with the OS
outcomes the corresponding handler observes: a dispatched signal with the
getpgid, waitpid and tcgetpgrp outcomes, a readable backchannel with its
recv outcome, or a readable error pipe with its read outcome. -/
inductive MonitorEvent
  | signal_event (info : SignalInfo) (pgidOf : Int → Option Int)
      (waitResults : List WaitResult) (tcget : Option Int)
  | backchannel_event (recv : Except IoErr MonitorMessage)
  | errpipe_event (readResult : Except IoErr (List Nat))

/-- Dispatch of one monitor event to its handler, exactly as the callbacks
are registered in MonitorClosure::new and EventClosure::on_signal. -/
def monitor_step (st : MonitorClosure) (d : MonitorDispatcher)
    (ev : MonitorEvent) :
    MonitorClosure × MonitorDispatcher × List MonitorEffect :=
  match ev with
  | .signal_event info pgidOf waitResults tcget =>
    monitor_on_signal st d info pgidOf waitResults tcget
  | .backchannel_event recv => read_backchannel st d recv
  | .errpipe_event readResult => read_errpipe st d readResult

/-- An effect directed at the command: a kill or a terminate_process. -/
def signals_command : MonitorEffect → Bool
  | .terminate_command _ => true
  | .kill _ _ => true
  | _ => false

/-- The monitor event loop over a finite event sequence: fold monitor_step,
collecting all effects in order. -/
def monitor_run (st : MonitorClosure) (d : MonitorDispatcher) :
    List MonitorEvent → MonitorClosure × MonitorDispatcher × List MonitorEffect
  | [] => (st, d, [])
  | ev :: evs =>
    let r := monitor_step st d ev
    let rest := monitor_run r.1 r.2.1 evs
    (rest.1, rest.2.1, r.2.2 ++ rest.2.2)

/-! Theorems settling the claims. -/

/-- C2, counterexample: the claim that exec_pty restores the user tty's
terminal attributes and original foreground process group after the event
loop returns is false of the source: no restoration step occurs either in
the teardown statements or in the returned closure. -/
theorem exec_pty_restoration_counterexample :
    ¬ (ParentStep.restore_terminal_attributes ∈
          exec_pty_teardown ++ exec_pty_returned_closure ∧
       ParentStep.restore_foreground_pgrp ∈
          exec_pty_teardown ++ exec_pty_returned_closure) := by
  decide

/-- C2, amended: after the parent's event loop returns, exec_pty returns the
exit reason immediately, restoring neither terminal attributes nor the
foreground process group (raw mode entered at startup is never turned off
anywhere in exec_pty), and the returned closure only performs the final
dispatcher drop. -/
theorem exec_pty_teardown_steps :
    exec_pty_teardown = [ParentStep.return_exit_reason] ∧
    exec_pty_returned_closure = [ParentStep.drop_dispatcher] ∧
    ParentStep.enter_raw_mode ∈ exec_pty_steps ∧
    ParentStep.restore_terminal_attributes ∉ exec_pty_steps ∧
    ParentStep.restore_foreground_pgrp ∉ exec_pty_steps := by
  decide

/-- C3, counterexample: the claim that the monitor first waits for
ExecCommand and only after that creates the error pipe is false of the
source: in exec_monitor the error pipe is created before the green-light
recv. -/
theorem exec_monitor_order_counterexample :
    ¬ (exec_monitor_steps.indexOf MonitorStep.wait_for_exec_command <
         exec_monitor_steps.indexOf MonitorStep.create_errpipe ∧
       exec_monitor_steps.indexOf MonitorStep.create_errpipe <
         exec_monitor_steps.indexOf MonitorStep.fork_command) := by
  decide

/-- C3, amended: in exec_monitor, after setsid and making the pty follower
the controlling terminal, the monitor first creates the error pipe, then
blocks (interrupt-resumed) waiting to receive MonitorMessage::ExecCommand on
the backchannel, and only after that forks the command. -/
theorem exec_monitor_startup_order :
    exec_monitor_steps.indexOf MonitorStep.call_setsid <
      exec_monitor_steps.indexOf MonitorStep.set_controlling_terminal ∧
    exec_monitor_steps.indexOf MonitorStep.set_controlling_terminal <
      exec_monitor_steps.indexOf MonitorStep.create_errpipe ∧
    exec_monitor_steps.indexOf MonitorStep.create_errpipe <
      exec_monitor_steps.indexOf MonitorStep.wait_for_exec_command ∧
    exec_monitor_steps.indexOf MonitorStep.wait_for_exec_command <
      exec_monitor_steps.indexOf MonitorStep.fork_command := by
  decide

/-- C5: in the parent an UnexpectedEof recv error is a graceful exit
(set_exit, not a break) and a ShortRead message sets a break carrying
UnexpectedEof, while in the monitor any non-interrupt recv error sets a
break. -/
theorem backchannel_eof_policy (st : ParentClosure) (pd : ParentDispatcher)
    (mst : MonitorClosure) (md : MonitorDispatcher) (err merr : IoErr)
    (heof : err.kind = ErrorKind.UnexpectedEof)
    (hmi : was_interrupted merr = false) :
    on_message_received st pd (Except.error err) =
      (st, set_exit pd (ParentExit.Backchannel err)) ∧
    on_message_received st pd (Except.ok ParentMessage.ShortRead) =
      (st, set_break pd ⟨ErrorKind.UnexpectedEof, none⟩) ∧
    read_backchannel mst md (Except.error merr) = (mst, set_break md merr, []) := by
  refine ⟨?_, rfl, ?_⟩
  · have hni : was_interrupted err = false := by
      simp [was_interrupted, heof]
    simp [on_message_received, hni, heof]
  · simp [read_backchannel, hmi]

/-- C5, witness: a concrete UnexpectedEof error on the parent backchannel
and a concrete connection-reset error on the monitor backchannel. -/
theorem backchannel_eof_policy_witness :
    on_message_received ⟨some 100, 50, some 200, []⟩ ⟨none, none⟩
        (Except.error ⟨ErrorKind.UnexpectedEof, none⟩) =
      (⟨some 100, 50, some 200, []⟩,
       set_exit ⟨none, none⟩
         (ParentExit.Backchannel ⟨ErrorKind.UnexpectedEof, none⟩)) ∧
    on_message_received ⟨some 100, 50, some 200, []⟩ ⟨none, none⟩
        (Except.ok ParentMessage.ShortRead) =
      (⟨some 100, 50, some 200, []⟩,
       set_break ⟨none, none⟩ ⟨ErrorKind.UnexpectedEof, none⟩) ∧
    read_backchannel ⟨some 200, 200, 100⟩ ⟨none, none⟩
        (Except.error ⟨ErrorKind.Other, some 104⟩) =
      (⟨some 200, 200, 100⟩, set_break ⟨none, none⟩ ⟨ErrorKind.Other, some 104⟩, []) :=
  backchannel_eof_policy ⟨some 100, 50, some 200, []⟩ ⟨none, none⟩
    ⟨some 200, 200, 100⟩ ⟨none, none⟩ ⟨ErrorKind.UnexpectedEof, none⟩
    ⟨ErrorKind.Other, some 104⟩ rfl rfl

/-- C6: the monitor's send_signal implements the policy table exactly:
SIGALRM initiates graceful termination via terminate_process; SIGCONT_FG
sets the follower's foreground group to the command's pgrp and then kills
the command with SIGCONT; SIGCONT_BG does the same with the monitor's pgrp;
every other signal is killed through directly. -/
theorem send_signal_policy (st : MonitorClosure) (pid sig : Int)
    (h1 : sig ≠ SIGALRM) (h2 : sig ≠ SIGCONT_FG) (h3 : sig ≠ SIGCONT_BG) :
    send_signal st SIGALRM pid = [MonitorEffect.terminate_command pid] ∧
    send_signal st SIGCONT_FG pid =
      [MonitorEffect.tcsetpgrp_follower st.command_pgrp,
       MonitorEffect.kill pid SIGCONT] ∧
    send_signal st SIGCONT_BG pid =
      [MonitorEffect.tcsetpgrp_follower st.monitor_pgrp,
       MonitorEffect.kill pid SIGCONT] ∧
    send_signal st sig pid = [MonitorEffect.kill pid sig] := by
  refine ⟨?_, ?_, ?_, ?_⟩
  · simp [send_signal]
  · simp [send_signal, SIGCONT_FG, SIGALRM]
  · simp [send_signal, SIGCONT_BG, SIGALRM, SIGCONT_FG]
  · simp [send_signal, h1, h2, h3]

/-- C6, witness: the policy table evaluated with SIGTERM (15) as the other
signal, for a closure whose command pgrp is 42 and monitor pgrp is 7. -/
theorem send_signal_policy_witness :
    send_signal ⟨some 42, 42, 7⟩ SIGALRM 42 = [MonitorEffect.terminate_command 42] ∧
    send_signal ⟨some 42, 42, 7⟩ SIGCONT_FG 42 =
      [MonitorEffect.tcsetpgrp_follower 42, MonitorEffect.kill 42 SIGCONT] ∧
    send_signal ⟨some 42, 42, 7⟩ SIGCONT_BG 42 =
      [MonitorEffect.tcsetpgrp_follower 7, MonitorEffect.kill 42 SIGCONT] ∧
    send_signal ⟨some 42, 42, 7⟩ 15 42 = [MonitorEffect.kill 42 15] :=
  send_signal_policy ⟨some 42, 42, 7⟩ 42 15 (by decide) (by decide) (by decide)

/-- Round trip of the native-order encoding: decoding the four bytes of any
i32 value recovers the value. -/
theorem i32_round_trip (e : Int) (h1 : -2147483648 ≤ e) (h2 : e < 2147483648) :
    i32_from_ne_bytes (i32_to_ne_bytes e) = e := by
  simp only [i32_to_ne_bytes, i32_from_ne_bytes]
  split <;> omega

/-- C4: for every raw OS error code e of a failed exec, the child writes
exactly one four-byte native-order encoding of e to the error pipe, the
monitor's read_errpipe decodes those four bytes back to e and sends
ParentMessage::IoError(e), and on receiving IoError(e) the parent sets a
dispatcher break whose error has raw OS code e. -/
theorem errpipe_errno_round_trip (mst : MonitorClosure) (md : MonitorDispatcher)
    (pst : ParentClosure) (pd : ParentDispatcher) (e : Int) (k : ErrorKind)
    (h1 : -2147483648 ≤ e) (h2 : e < 2147483648)
    (hb : pd.break_reason = none) :
    child_exec_failure_write ⟨k, some e⟩ = [i32_to_ne_bytes e] ∧
    (i32_to_ne_bytes e).length = 4 ∧
    read_errpipe mst md (Except.ok (i32_to_ne_bytes e)) =
      (mst, md, [MonitorEffect.send_parent (ParentMessage.IoError e)]) ∧
    (on_message_received pst pd (Except.ok (ParentMessage.IoError e))).2.break_reason =
      some (IoErr.from_raw_os_error e) ∧
    (IoErr.from_raw_os_error e).raw_os_error = some e := by
  refine ⟨rfl, rfl, ?_, ?_, rfl⟩
  · simp [read_errpipe, i32_round_trip e h1 h2]
  · simp [on_message_received, set_break, hb]

/-- C4, witness: the round trip at the concrete errno 2 (ENOENT) with fresh
dispatcher states on both sides. -/
theorem errpipe_errno_round_trip_witness :
    child_exec_failure_write ⟨ErrorKind.Other, some 2⟩ = [i32_to_ne_bytes 2] ∧
    (i32_to_ne_bytes 2).length = 4 ∧
    read_errpipe ⟨some 9, 9, 4⟩ ⟨none, none⟩ (Except.ok (i32_to_ne_bytes 2)) =
      (⟨some 9, 9, 4⟩, ⟨none, none⟩,
       [MonitorEffect.send_parent (ParentMessage.IoError 2)]) ∧
    (on_message_received ⟨some 8, 5, some 9, []⟩ ⟨none, none⟩
        (Except.ok (ParentMessage.IoError 2))).2.break_reason =
      some (IoErr.from_raw_os_error 2) ∧
    (IoErr.from_raw_os_error 2).raw_os_error = some 2 :=
  errpipe_errno_round_trip ⟨some 9, 9, 4⟩ ⟨none, none⟩ ⟨some 8, 5, some 9, []⟩
    ⟨none, none⟩ 2 ErrorKind.Other (by decide) (by decide) rfl

/-- C7: the monitor's handle_sigchld keeps the command_pid invariant: on an
exit or signal-termination wait status it sets command_pid to None and sets
the dispatcher exit to that status; on a stop status it leaves command_pid
and the dispatcher alone, records the follower's foreground pgrp as
command_pgrp exactly when that pgrp was read and differs from monitor_pgrp,
and sends CommandStatus upstream; on a continue status it changes no state
and performs no effect. -/
theorem handle_sigchld_cases (st : MonitorClosure) (d : MonitorDispatcher)
    (p c sg : Int) (tc : Option Int) :
    handle_sigchld st p d [Except.ok (p, WaitStatus.Exited c)] tc =
      ({ st with command_pid := none }, set_exit d (WaitStatus.Exited c), []) ∧
    handle_sigchld st p d [Except.ok (p, WaitStatus.Signaled sg)] tc =
      ({ st with command_pid := none }, set_exit d (WaitStatus.Signaled sg), []) ∧
    (∀ q, tc = some q → q ≠ st.monitor_pgrp →
      handle_sigchld st p d [Except.ok (p, WaitStatus.Stopped sg)] tc =
        ({ st with command_pgrp := q }, d,
         [MonitorEffect.send_parent (ParentMessage.CommandStatus (WaitStatus.Stopped sg))])) ∧
    handle_sigchld st p d [Except.ok (p, WaitStatus.Stopped sg)] (some st.monitor_pgrp) =
      (st, d,
       [MonitorEffect.send_parent (ParentMessage.CommandStatus (WaitStatus.Stopped sg))]) ∧
    handle_sigchld st p d [Except.ok (p, WaitStatus.Stopped sg)] none =
      (st, d,
       [MonitorEffect.send_parent (ParentMessage.CommandStatus (WaitStatus.Stopped sg))]) ∧
    handle_sigchld st p d [Except.ok (p, WaitStatus.Continued)] tc = (st, d, []) := by
  refine ⟨?_, ?_, ?_, ?_, ?_, ?_⟩
  · simp [handle_sigchld, monitor_wait_loop, WaitStatus.exit_status]
  · simp [handle_sigchld, monitor_wait_loop, WaitStatus.exit_status,
      WaitStatus.term_signal]
  · intro q hq hne
    subst hq
    simp [handle_sigchld, monitor_wait_loop, WaitStatus.exit_status,
      WaitStatus.term_signal, WaitStatus.stop_signal, hne]
  · simp [handle_sigchld, monitor_wait_loop, WaitStatus.exit_status,
      WaitStatus.term_signal, WaitStatus.stop_signal]
  · simp [handle_sigchld, monitor_wait_loop, WaitStatus.exit_status,
      WaitStatus.term_signal, WaitStatus.stop_signal]
  · simp [handle_sigchld, monitor_wait_loop, WaitStatus.exit_status,
      WaitStatus.term_signal, WaitStatus.stop_signal, WaitStatus.did_continue]

/-- C7, witness: a stop by SIGTSTP (20) observed while the terminal's
foreground pgrp 5 differs from the monitor pgrp 3 records 5 as the new
command pgrp and sends the stop status upstream. -/
theorem handle_sigchld_cases_witness :
    handle_sigchld ⟨some 10, 10, 3⟩ 10 ⟨none, none⟩
        [Except.ok (10, WaitStatus.Stopped 20)] (some 5) =
      (⟨some 10, 5, 3⟩, ⟨none, none⟩,
       [MonitorEffect.send_parent (ParentMessage.CommandStatus (WaitStatus.Stopped 20))]) :=
  (handle_sigchld_cases ⟨some 10, 10, 3⟩ ⟨none, none⟩ 10 0 20 (some 5)).2.2.1
    5 rfl (by decide)

/-- The parent's boolean self-termination test agrees with the condition as
the specification words it. -/
theorem p_self_terminating_iff (cp : Option Int) (sp : Int)
    (pgidOf : Int → Option Int) (s : Int) :
    p_is_self_terminating cp sp pgidOf s = true ↔
      spec_self_terminating cp sp pgidOf s := by
  constructor
  · intro h
    unfold p_is_self_terminating at h
    by_cases h0 : s = 0
    · rw [if_neg (fun hn => hn h0)] at h
      cases h
    · rw [if_pos h0] at h
      by_cases hcp : some s = cp
      · exact ⟨h0, Or.inl hcp⟩
      · rw [if_neg hcp] at h
        rcases hgv : pgidOf s with _ | g
        · simp only [hgv] at h
          cases h
        · simp only [hgv] at h
          by_cases h1 : some g = cp
          · exact ⟨h0, Or.inr ⟨g, hgv, Or.inl h1⟩⟩
          · rw [if_neg h1] at h
            by_cases h2 : g = sp
            · exact ⟨h0, Or.inr ⟨g, hgv, Or.inr h2⟩⟩
            · rw [if_neg h2] at h
              cases h
  · rintro ⟨h0, hor⟩
    unfold p_is_self_terminating
    rw [if_pos h0]
    rcases hor with hcp | ⟨g, hg, hor2⟩
    · rw [if_pos hcp]
    · by_cases hcp : some s = cp
      · rw [if_pos hcp]
      · rw [if_neg hcp]
        simp only [hg]
        rcases hor2 with h1 | h2
        · rw [if_pos h1]
        · by_cases h1 : some g = cp
          · rw [if_pos h1]
          · rw [if_neg h1, if_pos h2]

/-- C8: while the monitor is alive, for every user-sent signal other than
SIGCHLD, SIGCONT and SIGWINCH with signaler pid s, the parent enqueues no
MonitorMessage::Signal exactly when s is nonzero and s is the command pid,
or the process group of s is the command pid, or the process group of s is
the sudo pid; for every other signaler exactly one Signal message is
appended to the queue. -/
theorem parent_signal_filter (st : ParentClosure) (info : SignalInfo)
    (pgidOf : Int → Option Int) (ws : List WaitResult) (m : Int)
    (hm : st.monitor_pid = some m)
    (hs1 : info.signal ≠ SIGCHLD) (hs2 : info.signal ≠ SIGCONT)
    (hs3 : info.signal ≠ SIGWINCH) (hu : info.is_user_signaled = true) :
    ((parent_on_signal st info pgidOf ws).message_queue = st.message_queue ↔
      spec_self_terminating st.command_pid st.sudo_pid pgidOf info.pid) ∧
    (¬ spec_self_terminating st.command_pid st.sudo_pid pgidOf info.pid →
      (parent_on_signal st info pgidOf ws).message_queue =
        st.message_queue ++ [MonitorMessage.Signal info.signal]) := by
  have hred : parent_on_signal st info pgidOf ws =
      if p_is_self_terminating st.command_pid st.sudo_pid pgidOf info.pid then st
      else { st with
        message_queue := st.message_queue ++ [MonitorMessage.Signal info.signal] } := by
    simp [parent_on_signal, hm, hs1, hs2, hs3, hu]
  by_cases hflt : p_is_self_terminating st.command_pid st.sudo_pid pgidOf info.pid = true
  · have hspec := (p_self_terminating_iff st.command_pid st.sudo_pid pgidOf info.pid).mp hflt
    rw [hred, if_pos hflt]
    exact ⟨iff_of_true rfl hspec, fun hn => absurd hspec hn⟩
  · have hnspec : ¬ spec_self_terminating st.command_pid st.sudo_pid pgidOf info.pid :=
      fun hs => hflt ((p_self_terminating_iff st.command_pid st.sudo_pid pgidOf info.pid).mpr hs)
    rw [hred, if_neg hflt]
    refine ⟨iff_of_false ?_ hnspec, fun _ => rfl⟩
    intro h
    have hlen := congrArg List.length h
    simp at hlen

/-- C8, witness: a user-sent SIGINT whose signaler 33 is neither the command
44 nor in the command's or sudo's process group is forwarded as exactly one
Signal message. -/
theorem parent_signal_filter_witness :
    (parent_on_signal ⟨some 100, 50, some 44, []⟩ ⟨2, 33, true⟩
        (fun _ => some 60) []).message_queue = [] ++ [MonitorMessage.Signal 2] :=
  (parent_signal_filter ⟨some 100, 50, some 44, []⟩ ⟨2, 33, true⟩
    (fun _ => some 60) [] 100 rfl (by decide) (by decide) (by decide) rfl).2
    (by simp [spec_self_terminating])

/-- Once the command has been reaped, a single monitor step keeps
command_pid at None and performs no kill or terminate effect. -/
theorem monitor_step_reaped (st : MonitorClosure) (d : MonitorDispatcher)
    (ev : MonitorEvent) (h : st.command_pid = none) :
    (monitor_step st d ev).1.command_pid = none ∧
    ∀ eff ∈ (monitor_step st d ev).2.2, signals_command eff = false := by
  cases ev with
  | signal_event info pgidOf ws tc =>
    simp [monitor_step, monitor_on_signal, h]
  | backchannel_event recv =>
    cases recv with
    | error err =>
      by_cases hi : was_interrupted err <;>
        simp [monitor_step, read_backchannel, hi, h]
    | ok msg =>
      cases msg with
      | ExecCommand => simp [monitor_step, read_backchannel, h, signals_command]
      | Signal s => simp [monitor_step, read_backchannel, h]
  | errpipe_event r =>
    cases r with
    | error err =>
      by_cases hi : was_interrupted err <;>
        simp [monitor_step, read_errpipe, hi, h]
    | ok buf => simp [monitor_step, read_errpipe, h, signals_command]

/-- C9: once the monitor's command_pid is None, no sequence of further
events (delivered OS signals, backchannel messages, error-pipe reads) ever
produces a kill or terminate_process directed at the command, and
command_pid stays None. -/
theorem monitor_silent_after_reap (st : MonitorClosure) (d : MonitorDispatcher)
    (evs : List MonitorEvent) (h : st.command_pid = none) :
    (monitor_run st d evs).1.command_pid = none ∧
    ∀ eff ∈ (monitor_run st d evs).2.2, signals_command eff = false := by
  induction evs generalizing st d with
  | nil => simpa [monitor_run] using h
  | cons ev evs ih =>
    obtain ⟨h1, h2⟩ := monitor_step_reaped st d ev h
    obtain ⟨h3, h4⟩ := ih (monitor_step st d ev).1 (monitor_step st d ev).2.1 h1
    refine ⟨by simpa [monitor_run] using h3, ?_⟩
    intro eff heff
    simp only [monitor_run, List.mem_append] at heff
    rcases heff with h5 | h5
    · exact h2 eff h5
    · exact h4 eff h5

/-- C9, witness: after the command is reaped, a forwarded SIGTERM over the
backchannel and a user-sent SIGINT delivered as an OS signal are both
ignored without any kill or terminate effect. -/
theorem monitor_silent_after_reap_witness :
    (monitor_run ⟨none, 9, 3⟩ ⟨none, none⟩
        [MonitorEvent.backchannel_event (Except.ok (MonitorMessage.Signal 15)),
         MonitorEvent.signal_event ⟨2, 77, true⟩ (fun _ => none) [] none]).1.command_pid =
      none ∧
    ∀ eff ∈ (monitor_run ⟨none, 9, 3⟩ ⟨none, none⟩
        [MonitorEvent.backchannel_event (Except.ok (MonitorMessage.Signal 15)),
         MonitorEvent.signal_event ⟨2, 77, true⟩ (fun _ => none) [] none]).2.2,
      signals_command eff = false :=
  monitor_silent_after_reap ⟨none, 9, 3⟩ ⟨none, none⟩
    [MonitorEvent.backchannel_event (Except.ok (MonitorMessage.Signal 15)),
     MonitorEvent.signal_event ⟨2, 77, true⟩ (fun _ => none) [] none] rfl

/-- The parent's waitpid loop produces a status exactly when some waitpid
call in the observed sequence succeeded. -/
theorem parent_wait_loop_isSome (rs : List WaitResult) :
    (parent_wait_loop rs).isSome ↔ ∃ p s, Except.ok (p, s) ∈ rs := by
  induction rs with
  | nil => simp [parent_wait_loop]
  | cons head tail ih =>
    cases head with
    | ok v =>
      obtain ⟨p, s⟩ := v
      simp only [parent_wait_loop, Option.isSome_some, true_iff]
      exact ⟨p, s, List.mem_cons_self _ _⟩
    | error e => simp [parent_wait_loop, ih]

/-- C10: the parent's handle_sigchld wait loop retries every waitpid error,
NotReady and non-EINTR I/O errors included, and exits exactly when waitpid
reports a status; the monitor's loop instead returns at once on a non-EINTR
I/O error or NotReady. -/
theorem wait_loop_retry_semantics (rs : List WaitResult) (err : IoErr)
    (e : WaitError) (h : was_interrupted err = false) :
    parent_wait_loop (Except.error e :: rs) = parent_wait_loop rs ∧
    ((parent_wait_loop rs).isSome ↔ ∃ p s, Except.ok (p, s) ∈ rs) ∧
    monitor_wait_loop (Except.error (WaitError.Io err) :: rs) = none ∧
    monitor_wait_loop (Except.error WaitError.NotReady :: rs) = none := by
  refine ⟨rfl, parent_wait_loop_isSome rs, ?_, rfl⟩
  simp [monitor_wait_loop, h]

/-- C10, witness: a NotReady error followed by a successful wait is retried
past in the parent, while the monitor returns immediately on a concrete
ECHILD I/O error. -/
theorem wait_loop_retry_semantics_witness :
    parent_wait_loop (Except.error WaitError.NotReady ::
        ([Except.ok (12, WaitStatus.Exited 0)] : List WaitResult)) =
      parent_wait_loop ([Except.ok (12, WaitStatus.Exited 0)] : List WaitResult) ∧
    ((parent_wait_loop ([Except.ok (12, WaitStatus.Exited 0)] : List WaitResult)).isSome ↔
      ∃ p s, Except.ok (p, s) ∈ ([Except.ok (12, WaitStatus.Exited 0)] : List WaitResult)) ∧
    monitor_wait_loop (Except.error (WaitError.Io ⟨ErrorKind.Other, some 10⟩) ::
        ([Except.ok (12, WaitStatus.Exited 0)] : List WaitResult)) = none ∧
    monitor_wait_loop (Except.error WaitError.NotReady ::
        ([Except.ok (12, WaitStatus.Exited 0)] : List WaitResult)) = none :=
  wait_loop_retry_semantics ([Except.ok (12, WaitStatus.Exited 0)] : List WaitResult)
    ⟨ErrorKind.Other, some 10⟩ WaitError.NotReady rfl

end SudoExec
